import Mathlib

/-!
Verification of the behavioral contract of `src/main.py`
(`BedrockTextGenerator`): prompt composition, session-state accumulation,
construction-time credential checking, and the interactive console loop.

The Python class is shallowly embedded: the instance becomes a structure,
`generate_text` becomes a pure state-passing function parameterized by the
outcome of the one remote call it performs, the process environment becomes
an association list, and the interactive loop is driven by a finite script
of console lines.
-/

namespace BedrockChat

/-- The process environment, as an association list of variable names to
values. Python's `key in os.environ` (line 24 of `main.py`) is key
presence, regardless of the stored value. -/
def envHasKey (env : List (String × String)) (key : String) : Bool :=
  env.any (fun kv => kv.1 == key)

/-- Observable side effects performed during `__init__`, in order.
The only one is the `boto3.client` creation at lines 28-31. -/
inductive InitEffect where
  | createClient (region_name : String)
  deriving DecidableEq, Repr

/-- The state of a constructed `BedrockTextGenerator` instance
(lines 33-38 of `main.py`). The `temperature` float is only ever passed
through to the request payload, never computed with, so it is carried
opaquely as its literal. -/
structure BedrockTextGenerator where
  model_id : String
  region_name : String
  max_tokens : Nat
  temperature : String
  chat_history : List String
  deriving DecidableEq, Repr

/-- `BedrockTextGenerator.__init__` (lines 7-38): eagerly checks that both
credential variables are present in the environment, raising
`EnvironmentError` otherwise before any client creation; on success creates
the Bedrock client and initializes the instance with an empty
`chat_history`. -/
def init (env : List (String × String)) (model_id region_name : String)
    (max_tokens : Nat) (temperature : String) :
    List InitEffect × Except String BedrockTextGenerator :=
  if !(["AWS_ACCESS_KEY_ID", "AWS_SECRET_ACCESS_KEY"].all
        (fun key => envHasKey env key)) then
    ([], .error "AWS 자격증명 환경변수를 설정해주세요.")
  else
    ([.createClient region_name],
     .ok { model_id := model_id, region_name := region_name,
           max_tokens := max_tokens, temperature := temperature,
           chat_history := [] })

/-- Body of the history loop at lines 63-64: append one stored turn and a
newline to the accumulated prompt. -/
def appendLine (acc item : String) : String :=
  acc ++ item ++ "\n"

/-- Composition of `full_prompt` in `generate_text` (lines 55-66):
the optional system prompt (skipped when `None` or empty, by Python
truthiness of `if system_prompt:`), then — when the history is non-empty —
the literal label plus each stored turn on its own line, then the new
`Human:` line and the trailing `Assistant:` tag. -/
def composePrompt (system_prompt : Option String) (chat_history : List String)
    (prompt : String) : String :=
  let fp : String := ""
  let fp := match system_prompt with
    | some s => if s = "" then fp else fp ++ s ++ "\n"
    | none => fp
  let fp := if chat_history.isEmpty then fp
    else chat_history.foldl appendLine (fp ++ "대화 히스토리:\n")
  fp ++ "Human: " ++ prompt ++ "\nAssistant:"

/-- JSON values occurring in the request payload. Floats are carried as
their source literal and never computed with. -/
inductive PayloadValue where
  | jstr (s : String)
  | jfloat (lit : String)
  | jmessages (msgs : List (String × String))
  deriving DecidableEq, Repr

/-- The model input payload built in `generate_text` (lines 69-77): a dict
with exactly the keys `"messages"` (one user message carrying the composed
prompt) and `"temperature"`, in that order. Each message is a
(role, content) pair. -/
def requestBody (g : BedrockTextGenerator) (full_prompt : String) :
    List (String × PayloadValue) :=
  [("messages", .jmessages [("user", full_prompt)]),
   ("temperature", .jfloat g.temperature)]

/-- The payload a call to `generate_text` serializes and sends to the
endpoint, as a function of the instance state and the call arguments. -/
def sentBody (g : BedrockTextGenerator) (prompt : String)
    (system_prompt : Option String) : List (String × PayloadValue) :=
  requestBody g (composePrompt system_prompt g.chat_history prompt)

/-- Outcome of the remote call section of `generate_text` (lines 80-87):
the Bedrock invocation, the response-body read, and the extraction of
`choices[0].message.content` may each raise; otherwise a reply string is
extracted. -/
inductive CallOutcome where
  | invokeError
  | readError
  | extractError
  | extracted (content : String)
  deriving DecidableEq, Repr

/-- `generate_text` (lines 40-96): composes the full prompt, builds the
payload (see `sentBody`), performs the remote call with the given outcome;
on success appends the rendered Human and Assistant turns to
`chat_history` (lines 89-90) and returns the stripped reply (line 92);
any exception raised in the call section is caught and the empty string
returned with the state untouched (lines 94-96). -/
def generate_text (g : BedrockTextGenerator) (prompt : String)
    (system_prompt : Option String) (outcome : CallOutcome) :
    String × BedrockTextGenerator :=
  let _full_prompt := composePrompt system_prompt g.chat_history prompt
  match outcome with
  | .extracted generated_text =>
      (generated_text.trim,
       { g with chat_history := g.chat_history ++
          ["Human: " ++ prompt, "Assistant: " ++ generated_text] })
  | _ => ("", g)

/-- How a finite-script run of the interactive loop ended: either the
sentinel line was seen, or the script ran out of console lines. -/
inductive LoopExit where
  | terminated
  | outOfInput
  deriving DecidableEq, Repr

/-- `interactive_chat` (lines 98-123), driven by a finite script of console
lines, each paired with the outcome of the remote call it would trigger.
Returns the final instance state, the prompts forwarded to `generate_text`
in order, and how the run ended. The sentinel comparison at line 110 is
exact string equality with the literal. -/
def interactive_chat (g : BedrockTextGenerator) (system_prompt : Option String) :
    List (String × CallOutcome) → BedrockTextGenerator × List String × LoopExit
  | [] => (g, [], .outOfInput)
  | (user_input, oc) :: rest =>
      if user_input = "종료" then (g, [], .terminated)
      else
        let step := generate_text g user_input system_prompt oc
        let tail := interactive_chat step.2 system_prompt rest
        (tail.1, user_input :: tail.2.1, tail.2.2)

/-- Each stored turn rendered on its own line (followed by a newline),
in stored order. -/
def renderedLines : List String → String
  | [] => ""
  | t :: ts => t ++ "\n" ++ renderedLines ts

/-- The system-instruction part of the composed prompt: the instruction
followed by a newline when present and non-empty, nothing otherwise. -/
def systemPart : Option String → String
  | some s => if s = "" then "" else s ++ "\n"
  | none => ""

theorem foldl_line_eq (l : List String) (acc : String) :
    l.foldl appendLine acc = acc ++ renderedLines l := by
  induction l generalizing acc with
  | nil => simp [renderedLines, String.append_empty]
  | cons t ts ih =>
    rw [List.foldl_cons, ih]
    simp [renderedLines, appendLine, String.append_assoc]

/-- Claim C1: every failing call to generate_text (any exception while
invoking the endpoint, reading the response body, or extracting the reply)
returns the empty string and leaves the instance state, in particular
chat_history, exactly as before the call. -/
theorem generate_failure_returns_empty_state_unchanged
    (g : BedrockTextGenerator) (prompt : String) (system_prompt : Option String)
    (outcome : CallOutcome) (h : ∀ c, outcome ≠ CallOutcome.extracted c) :
    (generate_text g prompt system_prompt outcome).1 = ""
    ∧ (generate_text g prompt system_prompt outcome).2 = g := by
  cases outcome with
  | extracted c => exact absurd rfl (h c)
  | invokeError => exact ⟨rfl, rfl⟩
  | readError => exact ⟨rfl, rfl⟩
  | extractError => exact ⟨rfl, rfl⟩

/-- Witness for C1: a concrete failing call with a non-empty history. -/
theorem generate_failure_returns_empty_state_unchanged_witness :
    (∀ c, CallOutcome.readError ≠ CallOutcome.extracted c)
    ∧ ((generate_text ⟨"ai21.jamba-1-5-mini-v1:0", "us-east-1", 200, "0.7",
          ["Human: a", "Assistant: b"]⟩ "hi" none CallOutcome.readError).1 = ""
       ∧ (generate_text ⟨"ai21.jamba-1-5-mini-v1:0", "us-east-1", 200, "0.7",
          ["Human: a", "Assistant: b"]⟩ "hi" none CallOutcome.readError).2
        = ⟨"ai21.jamba-1-5-mini-v1:0", "us-east-1", 200, "0.7",
           ["Human: a", "Assistant: b"]⟩) :=
  ⟨fun _ h => CallOutcome.noConfusion h,
   generate_failure_returns_empty_state_unchanged _ _ _ _
     (fun _ h => CallOutcome.noConfusion h)⟩

/-- Claim C2 (code evaluation): the payload built and sent by generate_text
has exactly the top-level keys "messages" and "temperature"; no max_tokens
entry exists, and two instances differing only in their max_tokens
configuration send identical bodies. -/
theorem sentBody_has_no_max_tokens :
    ((sentBody ⟨"ai21.jamba-1-5-mini-v1:0", "us-east-1", 200, "0.7", []⟩
        "hi" none).map Prod.fst = ["messages", "temperature"])
    ∧ sentBody ⟨"ai21.jamba-1-5-mini-v1:0", "us-east-1", 200, "0.7", []⟩
        "hi" none
      = sentBody ⟨"ai21.jamba-1-5-mini-v1:0", "us-east-1", 5, "0.7", []⟩
        "hi" none :=
  ⟨rfl, rfl⟩

/-- Counterexample for C3: with one stored turn and no system instruction,
the composed prompt is the Korean-labelled string, not the form with the
English label "conversation history:" that the claim states. -/
theorem composePrompt_english_label_counterexample :
    composePrompt none ["Human: a"] "c"
      = "대화 히스토리:\nHuman: a\nHuman: c\nAssistant:"
    ∧ ((composePrompt none ["Human: a"] "c"
        == "conversation history:\nHuman: a\nHuman: c\nAssistant:") = false) :=
  ⟨rfl, rfl⟩

/-- Claim C3 (amended): with a non-empty history the composed prompt is the
optional system-instruction part, then the literal label "대화 히스토리:"
and a newline, then every stored turn on its own line in stored order, then
the new Human line and the Assistant tag. -/
theorem composePrompt_history_block (system_prompt : Option String)
    (chat_history : List String) (prompt : String) (h : chat_history ≠ []) :
    composePrompt system_prompt chat_history prompt
      = systemPart system_prompt ++ "대화 히스토리:\n"
        ++ renderedLines chat_history ++ "Human: " ++ prompt ++ "\nAssistant:" := by
  have hh : chat_history.isEmpty = false := by
    cases chat_history with
    | nil => exact absurd rfl h
    | cons a l => rfl
  cases system_prompt with
  | none =>
    simp [composePrompt, systemPart, hh, foldl_line_eq, String.empty_append,
      String.append_empty, String.append_assoc]
  | some s =>
    by_cases hs : s = "" <;>
      simp [composePrompt, systemPart, hh, hs, foldl_line_eq,
        String.empty_append, String.append_empty, String.append_assoc]

/-- Witness for C3 (amended) at a concrete non-empty history. -/
theorem composePrompt_history_block_witness :
    (["Human: a", "Assistant: b"] ≠ ([] : List String))
    ∧ composePrompt (some "S") ["Human: a", "Assistant: b"] "c"
      = systemPart (some "S") ++ "대화 히스토리:\n"
        ++ renderedLines ["Human: a", "Assistant: b"]
        ++ "Human: " ++ "c" ++ "\nAssistant:" :=
  ⟨by decide,
   composePrompt_history_block (some "S") ["Human: a", "Assistant: b"] "c"
     (by decide)⟩

/-- Claim C4: the two worked examples of prompt composition, the second
taken from the state actually produced by one successful generate_text
call with prompt "a" and extracted reply "b". -/
theorem composePrompt_worked_examples :
    composePrompt none [] "hi" = "Human: hi\nAssistant:"
    ∧ composePrompt (some "S")
        ((generate_text ⟨"ai21.jamba-1-5-mini-v1:0", "us-east-1", 200, "0.7",
            []⟩ "a" (some "S") (CallOutcome.extracted "b")).2.chat_history) "c"
      = "S\n대화 히스토리:\nHuman: a\nAssistant: b\nHuman: c\nAssistant:" :=
  ⟨rfl, rfl⟩

/-- Claim C5: a successful call appends exactly the rendered Human turn for
the prompt and then the rendered Assistant turn for the extracted reply at
the end of chat_history, leaves all earlier entries unchanged, and returns
the extracted reply with surrounding whitespace trimmed. -/
theorem generate_success_appends_two_and_trims
    (g : BedrockTextGenerator) (prompt content : String)
    (system_prompt : Option String) :
    generate_text g prompt system_prompt (CallOutcome.extracted content)
      = (content.trim,
         { g with chat_history := g.chat_history
            ++ ["Human: " ++ prompt, "Assistant: " ++ content] }) :=
  rfl

/-- Claim C6: if either required credential variable is absent from the
environment, construction raises the configuration error with no client
created and no instance state produced. -/
theorem init_missing_credentials_raises (env : List (String × String))
    (model_id region_name : String) (max_tokens : Nat) (temperature : String)
    (h : envHasKey env "AWS_ACCESS_KEY_ID" = false
       ∨ envHasKey env "AWS_SECRET_ACCESS_KEY" = false) :
    init env model_id region_name max_tokens temperature
      = ([], Except.error "AWS 자격증명 환경변수를 설정해주세요.") := by
  rcases h with h | h <;> simp [init, List.all_cons, List.all_nil, h]

/-- Witness for C6: construction from the empty environment. -/
theorem init_missing_credentials_raises_witness :
    envHasKey [] "AWS_ACCESS_KEY_ID" = false
    ∧ init [] "ai21.jamba-1-5-mini-v1:0" "us-east-1" 200 "0.7"
      = ([], Except.error "AWS 자격증명 환경변수를 설정해주세요.") :=
  ⟨rfl,
   init_missing_credentials_raises [] "ai21.jamba-1-5-mini-v1:0" "us-east-1"
     200 "0.7" (Or.inl rfl)⟩

/-- Claim C7: a loop run reaches the terminated exit iff some script line
equals the sentinel "종료", and the prompts forwarded to generate_text are
exactly the script lines before the first sentinel, unchanged and in
order (so the loop continues after every non-sentinel line, including the
empty string). -/
theorem interactive_chat_sentinel (g : BedrockTextGenerator)
    (system_prompt : Option String) (script : List (String × CallOutcome)) :
    ((interactive_chat g system_prompt script).2.2 = LoopExit.terminated
        ↔ "종료" ∈ script.map Prod.fst)
    ∧ (interactive_chat g system_prompt script).2.1
        = (script.takeWhile (fun line => line.1 != "종료")).map Prod.fst := by
  induction script generalizing g with
  | nil => simp [interactive_chat]
  | cons hd tl ih =>
    obtain ⟨input, oc⟩ := hd
    by_cases hi : input = "종료"
    · subst hi
      simp [interactive_chat, List.takeWhile_cons]
    · simp [interactive_chat, hi, List.takeWhile_cons, ih, Ne.symm hi]

/-- Claim C8: prompt composition is a pure function of the triple
(system instruction, chat_history, new prompt): two instances agreeing on
chat_history compose identical prompts whatever their other fields, and
the content generate_text sends is exactly that composition applied to the
instance's own triple. -/
theorem composePrompt_pure (g₁ g₂ : BedrockTextGenerator)
    (system_prompt : Option String) (prompt : String)
    (h : g₁.chat_history = g₂.chat_history) :
    composePrompt system_prompt g₁.chat_history prompt
      = composePrompt system_prompt g₂.chat_history prompt
    ∧ sentBody g₁ prompt system_prompt
      = requestBody g₁ (composePrompt system_prompt g₁.chat_history prompt) :=
  ⟨by rw [h], rfl⟩

/-- Witness for C8: two instances differing in model, region and
max_tokens but sharing a history compose the same prompt. -/
theorem composePrompt_pure_witness :
    (BedrockTextGenerator.chat_history
        ⟨"ai21.jamba-1-5-mini-v1:0", "us-east-1", 200, "0.7", ["Human: a"]⟩
      = BedrockTextGenerator.chat_history
        ⟨"other-model", "eu-west-1", 5, "0.1", ["Human: a"]⟩)
    ∧ (composePrompt (some "S")
        (BedrockTextGenerator.chat_history
          ⟨"ai21.jamba-1-5-mini-v1:0", "us-east-1", 200, "0.7", ["Human: a"]⟩) "c"
      = composePrompt (some "S")
        (BedrockTextGenerator.chat_history
          ⟨"other-model", "eu-west-1", 5, "0.1", ["Human: a"]⟩) "c"
    ∧ sentBody ⟨"ai21.jamba-1-5-mini-v1:0", "us-east-1", 200, "0.7",
          ["Human: a"]⟩ "c" (some "S")
      = requestBody ⟨"ai21.jamba-1-5-mini-v1:0", "us-east-1", 200, "0.7",
          ["Human: a"]⟩
          (composePrompt (some "S")
            (BedrockTextGenerator.chat_history
              ⟨"ai21.jamba-1-5-mini-v1:0", "us-east-1", 200, "0.7",
               ["Human: a"]⟩) "c")) :=
  ⟨rfl,
   composePrompt_pure
     ⟨"ai21.jamba-1-5-mini-v1:0", "us-east-1", 200, "0.7", ["Human: a"]⟩
     ⟨"other-model", "eu-west-1", 5, "0.1", ["Human: a"]⟩ (some "S") "c" rfl⟩

/-- Claim C9: an empty system instruction is treated exactly as an absent
one, both in the composed prompt and in the payload sent. -/
theorem empty_system_prompt_eq_none (g : BedrockTextGenerator)
    (chat_history : List String) (prompt : String) :
    composePrompt (some "") chat_history prompt
      = composePrompt none chat_history prompt
    ∧ sentBody g prompt (some "") = sentBody g prompt none :=
  ⟨rfl, rfl⟩

/-- Claim C10: the credential check tests key presence only, not values:
construction with both variables bound (to any values, in particular the
empty string) succeeds, creates the client, and starts with an empty
Session State. -/
theorem init_empty_credential_values (model_id region_name : String)
    (max_tokens : Nat) (temperature : String) (v₁ v₂ : String) :
    init [("AWS_ACCESS_KEY_ID", v₁), ("AWS_SECRET_ACCESS_KEY", v₂)]
        model_id region_name max_tokens temperature
      = ([InitEffect.createClient region_name],
         Except.ok { model_id := model_id, region_name := region_name,
                     max_tokens := max_tokens, temperature := temperature,
                     chat_history := [] })
    ∧ init [("AWS_ACCESS_KEY_ID", ""), ("AWS_SECRET_ACCESS_KEY", "")]
        model_id region_name max_tokens temperature
      = ([InitEffect.createClient region_name],
         Except.ok { model_id := model_id, region_name := region_name,
                     max_tokens := max_tokens, temperature := temperature,
                     chat_history := [] }) :=
  ⟨rfl, rfl⟩

end BedrockChat
